/-
Verification of the GrangerCausality analysis pipeline.

Shallow embedding of the repository's analysis and data-processing
functions (src/analysis/stationarity.py, granger.py, var_model.py,
src/data_processing/merger.py, loader.py, cleaner.py).

Modelling conventions:
- a pandas Series cell is `Option ℚ` (`none` models NaN);
- external statistical routines (adfuller, kpss, grangercausalitytests,
  VAR.fit, stats.zscore, np.log, pd.read_csv) are oracle parameters of
  type `... → Except ...` so that a raised exception is `.error`;
- Python dictionaries are partial maps `K → Option V`;
- pandas object aliasing (Series.copy vs in-place assignment) is made
  explicit with a small heap of series cells.
-/
import Mathlib

namespace GrangerSpec

/-! ## Series primitives (pandas Series over `Option ℚ`) -/

/-- `Series.dropna()` keeping the `Option` view: removes the NaN cells. -/
def dropna (xs : List (Option ℚ)) : List (Option ℚ) :=
  xs.filter (fun x => x.isSome)

/-- `Series.dropna()` as a plain list of values. -/
def dropnaVals (xs : List (Option ℚ)) : List ℚ :=
  xs.filterMap id

/-- pandas sample variance `Series.var()` (ddof = 1); `none` models the NaN
returned on fewer than two observations. -/
def pvar (xs : List ℚ) : Option ℚ :=
  if xs.length ≤ 1 then none
  else
    let n : ℚ := xs.length
    let m : ℚ := xs.sum / n
    some ((xs.map (fun x => (x - m) ^ 2)).sum / (n - 1))

/-! ## stationarity.py -/

/-- The zero-variance pre-check of `check_stationarity_kpss`
(`series.dropna().var() < 1e-10`; a NaN variance compares `False`). -/
def zeroVarCheck (xs : List ℚ) : Bool :=
  match pvar xs with
  | some v => decide (v < 1 / 10000000000)
  | none => false

/-- `check_stationarity_adf`: `adfOracle` models `adfuller` on the
NaN-free data, returning the p-value, or `.error` when it raises.
Returns `(is_stationary, p_value)` with `is_stationary = (p < α)`;
on an exception returns `(False, 1.0)`. -/
def check_stationarity_adf (adfOracle : List ℚ → Except String ℚ)
    (series : List (Option ℚ)) (significance_level : ℚ) : Bool × ℚ :=
  match adfOracle (dropnaVals series) with
  | .ok p => (decide (p < significance_level), p)
  | .error _ => (false, 1)

/-- `check_stationarity_kpss`: `kpssOracle` models `kpss` on the NaN-free
data. The zero-variance pre-check returns `(True, 1.0)` before the oracle
is consulted; otherwise `is_stationary = (p ≥ α)`, and an exception
yields `(False, 0.0)`. -/
def check_stationarity_kpss (kpssOracle : List ℚ → Except String ℚ)
    (series : List (Option ℚ)) (significance_level : ℚ) : Bool × ℚ :=
  let s := dropnaVals series
  if zeroVarCheck s then (true, 1)
  else
    match kpssOracle s with
    | .ok p => (decide (significance_level ≤ p), p)
    | .error _ => (false, 0)

/-- pandas `Series.diff(k)`: cell `i` is NaN for `i < k`, otherwise
`x i - x (i-k)` with NaN propagation. -/
def seriesDiff (k : Nat) (xs : List (Option ℚ)) : List (Option ℚ) :=
  (List.range xs.length).map (fun i =>
    if i < k then none
    else
      match xs.getD i none, xs.getD (i - k) none with
      | some a, some b => some (a - b)
      | _, _ => none)

/-- `apply_differencing` on a Series: `order <= 0` returns the input
unchanged, otherwise `data.diff(order).dropna()`. -/
def apply_differencing (order : Int) (data : List (Option ℚ)) : List (Option ℚ) :=
  if order ≤ 0 then data
  else dropna (seriesDiff order.toNat data)

/-- pandas `DataFrame.diff(k)` on a row-major frame: the first `k` rows
become all-NaN, row `i ≥ k` is the cellwise difference with row `i-k`. -/
def frameDiff (k : Nat) (rows : List (List (Option ℚ))) : List (List (Option ℚ)) :=
  (List.range rows.length).map (fun i =>
    if i < k then (rows.getD i []).map (fun _ => none)
    else
      List.zipWith (fun a b =>
          match a, b with
          | some x, some y => some (x - y)
          | _, _ => none)
        (rows.getD i []) (rows.getD (i - k) []))

/-- `DataFrame.dropna()`: drops every row containing a NaN cell. -/
def frameDropna (rows : List (List (Option ℚ))) : List (List (Option ℚ)) :=
  rows.filter (fun row => row.all (fun x => x.isSome))

/-- `apply_differencing` on a DataFrame (the `else` branch of the
`isinstance` dispatch): `data.diff(order).dropna()`. -/
def apply_differencing_df (order : Int) (data : List (List (Option ℚ))) :
    List (List (Option ℚ)) :=
  if order ≤ 0 then data
  else frameDropna (frameDiff order.toNat data)

/-! ### Reference definitions for the differencing semantics -/

/-- The single lag-`k` difference of a NaN-free series:
`[x k - x 0, x (k+1) - x 1, ...]` (what `Series.diff(k).dropna()`
computes). -/
def lagDiff (k : Nat) (xs : List ℚ) : List ℚ :=
  (List.range (xs.length - k)).map (fun i => xs.getD (i + k) 0 - xs.getD i 0)

/-- The first difference of consecutive values. -/
def firstDiff (xs : List ℚ) : List ℚ := lagDiff 1 xs

/-- Modelled from the spec: "applies first differences `order` times",
i.e. the `k`-fold iterated first difference.  Used only to compare the
spec's wording with the source's behaviour. -/
def iterFirstDiff (k : Nat) (xs : List ℚ) : List ℚ :=
  match k with
  | 0 => xs
  | k + 1 => firstDiff (iterFirstDiff k xs)

/-- The row-level lag-`k` difference of a NaN-free frame (what
`DataFrame.diff(k).dropna()` computes on NaN-free rectangular data). -/
def lagDiffRows (k : Nat) (rows : List (List ℚ)) : List (List ℚ) :=
  (List.range (rows.length - k)).map (fun i =>
    List.zipWith (fun a b => a - b) (rows.getD (i + k) []) (rows.getD i []))

/-! ## granger.py -/

/-- The slice of a fitted `VARResults` object that
`perform_granger_causality_test` reads: the variable names and the model
data `results.model.y` (row-major). -/
structure VarResultsM where
  names : List String
  y : List (List ℚ)

/-- The numbers extracted from one `grangercausalitytests` call at the
requested lag: `ssr_ftest` (F, p, df_num, df_den) and `params_ftest`
(F, p). -/
structure GRaw where
  ssrF : ℚ
  ssrP : ℚ
  dfNum : ℚ
  dfDen : ℚ
  paramsF : ℚ
  paramsP : ℚ
deriving DecidableEq

/-- One value of the `test_results` dictionary in the success case. -/
structure GOut where
  ssrF : ℚ
  ssrP : ℚ
  ssrSignificant : Bool
  paramsF : ℚ
  paramsP : ℚ
  paramsSignificant : Bool
  lag : Int
  dfNum : ℚ
  dfDen : ℚ
deriving DecidableEq

/-- A `test_results` dictionary entry: either the extracted statistics or
the `{'error': str(e)}` marker recorded when the pair's test raised. -/
inductive GEntry where
  | ok (r : GOut)
  | err (msg : String)
deriving DecidableEq

/-- Builds the dictionary entry for one ordered pair from the outcome of
the underlying `grangercausalitytests` call (the `try`/`except` body of
the inner loop). -/
def mkGEntry (maxLag : Int) (significance_level : ℚ) (res : Except String GRaw) : GEntry :=
  match res with
  | .ok r =>
      .ok ⟨r.ssrF, r.ssrP, decide (r.ssrP < significance_level),
           r.paramsF, r.paramsP, decide (r.paramsP < significance_level),
           maxLag, r.dfNum, r.dfDen⟩
  | .error e => .err e

/-- A Python dict keyed by ordered variable pairs, as a partial map. -/
def GMap : Type := String × String → Option GEntry

/-- Python dict assignment `d[k] = v`. -/
def gmapUpdate (d : GMap) (k : String × String) (v : GEntry) : GMap :=
  fun k2 => if k2 = k then some v else d k2

/-- The inner `for causing_var in variables` loop body for a fixed
`caused_var`: skips the diagonal and stores the entry computed from the
bivariate test.  `oracle caused causing` models
`grangercausalitytests(data[[caused, causing]], [max_lag])` together
with the result extraction, `.error` when it raises. -/
def grangerInner (oracle : String → String → Except String GRaw)
    (maxLag : Int) (significance_level : ℚ) (caused : String)
    (d : GMap) (vars : List String) : GMap :=
  vars.foldl (fun d2 causing =>
    if caused = causing then d2
    else gmapUpdate d2 (caused, causing) (mkGEntry maxLag significance_level (oracle caused causing))) d

/-- `perform_granger_causality_test`: rejects `max_lag <= 0` with `None`
before any pair is tested, otherwise runs the double loop over all
ordered pairs of `results.names`. -/
def perform_granger_causality_test (results : VarResultsM)
    (oracle : String → String → Except String GRaw)
    (max_lag : Int) (significance_level : ℚ) : Option GMap :=
  if max_lag ≤ 0 then none
  else some (results.names.foldl
    (fun d caused => grangerInner oracle max_lag significance_level caused d results.names)
    (fun _ => none))

/-! ## var_model.py -/

/-- `fit_var_model`: rejects negative lag orders and lag order 0 with
`None` before any estimation; otherwise `fitOracle lag` models
`VAR(data).fit(lag)`, with `.error` when estimation raises (also giving
`None`).  `hasNaN` models `data.isnull().values.any()`, which only
triggers a warning. -/
def fit_var_model (fitOracle : Int → Except String VarResultsM)
    (hasNaN : Bool) (lag_order : Int) : Option VarResultsM :=
  if lag_order < 0 then none
  else if lag_order = 0 then none
  else
    match fitOracle lag_order with
    | .ok r => some r
    | .error _ => none

/-! ## merger.py -/

/-- The column names of `pd.merge(df1, df2, left_index=True,
right_index=True, how=how)`: a column name present in both frames is
suffixed `_x` on the left copy and `_y` on the right copy (pandas
default suffixes); all other names pass through. -/
def mergedColumnNames (cols1 cols2 : List String) : List String :=
  cols1.map (fun c => if c ∈ cols2 then c ++ "_x" else c) ++
  cols2.map (fun c => if c ∈ cols1 then c ++ "_y" else c)

/-- `Index.duplicated().any()` on a list of column names. -/
def hasDupCol : List String → Bool
  | [] => false
  | c :: cs => cs.contains c || hasDupCol cs

/-- The duplicate-column warning condition of `merge_dataframes`:
`merged_df.columns.duplicated().any()` computed on the post-merge
column names. -/
def merge_dup_warning (cols1 cols2 : List String) : Bool :=
  hasDupCol (mergedColumnNames cols1 cols2)

/-- Whether two frames have a column-name collision (same name present
in both inputs). -/
def columnsCollide (cols1 cols2 : List String) : Bool :=
  cols1.any (fun c => cols2.contains c)

/-- Minimum of a monthly index (months as absolute month numbers);
`none` on an empty index. -/
def listMin : List Nat → Option Nat
  | [] => none
  | x :: xs => some (xs.foldl min x)

/-- Maximum of a monthly index; `none` on an empty index. -/
def listMax : List Nat → Option Nat
  | [] => none
  | x :: xs => some (xs.foldl max x)

/-- The gap-detection part of `check_completeness` on a monthly
`PeriodIndex` (months as absolute month numbers): builds
`pd.period_range(df.index.min(), df.index.max())`, compares lengths, and
when they differ reports `expected_index.difference(df.index)`; returns
the list of reported missing periods. -/
def check_completeness (idx : List Nat) : List Nat :=
  match listMin idx, listMax idx with
  | some lo, some hi =>
      let expected := List.range' lo (hi + 1 - lo)
      if idx.length = expected.length then []
      else expected.filter (fun m => decide (m ∉ idx))
  | _, _ => []

/-! ## loader.py -/

/-- Errors raised by the pandas calls that the loaders wrap:
`ValueError` is distinguished because the DTP branch has an inner
`except ValueError` fallback; everything else (including
`FileNotFoundError`) is `otherErr`. -/
inductive ReadErr where
  | valueErr (msg : String)
  | otherErr (msg : String)

/-- The message carried by a read error. -/
def readErrMsg : ReadErr → String
  | .valueErr m => m
  | .otherErr m => m

/-- A raw parsed CSV table. -/
def RawCsv : Type := List (List String)

/-- A loaded data frame (rows of numeric cells); `[]` is the empty
frame returned on failure. -/
def LoadFrame : Type := List (List ℚ)

/-- Prefix test on character lists. -/
def startsList : List Char → List Char → Bool
  | [], _ => true
  | _ :: _, [] => false
  | a :: as, b :: bs => a == b && startsList as bs

/-- Substring test on character lists (Python `needle in haystack`). -/
def containsList (needle : List Char) : List Char → Bool
  | [] => startsList needle []
  | c :: cs => startsList needle (c :: cs) || containsList needle cs

/-- `load_temperature_data`: `readCsv` models `pd.read_csv(...)`,
`transform` the subsequent renaming/date-derivation/column selection;
any raised error is caught and turned into an empty frame plus a
descriptive message. -/
def load_temperature_data (readCsv : List Char → Except ReadErr RawCsv)
    (transform : RawCsv → Except ReadErr LoadFrame)
    (filepath : List Char) : LoadFrame × Option String :=
  match readCsv filepath with
  | .error e => ([], some (readErrMsg e))
  | .ok raw =>
      match transform raw with
      | .ok df => (df, none)
      | .error e => ([], some (readErrMsg e))

/-- `load_secondary_data`: dispatches on whether the path contains
`"mortality"` or `"dtp"`.  `readCsv`/`transformMort` model the mortality
branch; `readDtpDirect` models `pd.read_csv(..., parse_dates=...)` whose
`ValueError` triggers the manual fallback `readPlain`/`manualDtp`;
`transformDtp` models the final renaming/selection.  An unknown path
kind, or any raised error, yields an empty frame plus a message. -/
def load_secondary_data (readCsv : List Char → Except ReadErr RawCsv)
    (transformMort : RawCsv → Except ReadErr LoadFrame)
    (readDtpDirect : List Char → Except ReadErr LoadFrame)
    (readPlain : List Char → Except ReadErr RawCsv)
    (manualDtp : RawCsv → Except ReadErr LoadFrame)
    (transformDtp : LoadFrame → Except ReadErr LoadFrame)
    (filepath : List Char) : LoadFrame × Option String :=
  if containsList ("mortality".toList) filepath then
    match readCsv filepath with
    | .error e => ([], some (readErrMsg e))
    | .ok raw =>
        match transformMort raw with
        | .ok df => (df, none)
        | .error e => ([], some (readErrMsg e))
  else if containsList ("dtp".toList) filepath then
    match readDtpDirect filepath with
    | .ok df =>
        (match transformDtp df with
         | .ok d2 => (d2, none)
         | .error e => ([], some (readErrMsg e)))
    | .error (.valueErr _) =>
        (match readPlain filepath with
         | .error e => ([], some (readErrMsg e))
         | .ok raw =>
             match manualDtp raw with
             | .error e => ([], some (readErrMsg e))
             | .ok df =>
                 match transformDtp df with
                 | .ok d2 => (d2, none)
                 | .error e => ([], some (readErrMsg e)))
    | .error (.otherErr m) => ([], some m)
  else ([], some "unknown secondary data file type")

/-! ## cleaner.py (`normalize_data`) -/

/-- A heap of pandas Series objects: `cells` maps references to series
values, `next` is the next fresh reference.  This makes Python object
aliasing explicit: `Series.copy()` and functions returning new series
allocate fresh cells, in-place item assignment writes a cell. -/
structure PyHeap where
  cells : Nat → List ℚ
  next : Nat

/-- Reads the series value a reference points to. -/
def readRef (h : PyHeap) (r : Nat) : List ℚ := h.cells r

/-- Allocates a fresh series object holding `v`. -/
def allocRef (h : PyHeap) (v : List ℚ) : PyHeap × Nat :=
  (⟨fun i => if i = h.next then v else h.cells i, h.next + 1⟩, h.next)

/-- In-place mutation of the series object at `r`. -/
def writeRef (h : PyHeap) (r : Nat) (v : List ℚ) : PyHeap :=
  ⟨fun i => if i = r then v else h.cells i, h.next⟩

/-- pandas `Series.std() == 0` (ddof = 1): true iff the variance is
defined and zero (`std = sqrt(var)` vanishes iff `var` does; a NaN std
compares `False`). -/
def stdIsZero (xs : List ℚ) : Bool :=
  match pvar xs with
  | some v => decide (v = 0)
  | none => false

/-- `normalize_data` over the series heap.  `zscoreF` models
`stats.zscore`, `lnF` models `np.log` cellwise.  The z-score and log
branches return fresh series objects; in the log branch with
non-positive values the source copies the input
(`series_adjusted = series.copy()`), replaces `<= 0` cells by 1 in the
copy, and logs the copy.  Returns the final heap and the reference of
the returned series. -/
def normalize_data (zscoreF : List ℚ → List ℚ) (lnF : ℚ → ℚ)
    (method : Option String) (h : PyHeap) (r : Nat) : PyHeap × Nat :=
  match method with
  | some m =>
      if m = "z-score" then
        if stdIsZero (readRef h r) then (h, r)
        else allocRef h (zscoreF (readRef h r))
      else if m = "log" then
        if (readRef h r).any (fun x => decide (x ≤ 0)) then
          let hr2 := allocRef h (readRef h r)
          let h2 := writeRef hr2.1 hr2.2
            ((readRef hr2.1 hr2.2).map (fun x => if x ≤ 0 then 1 else x))
          allocRef h2 ((readRef h2 hr2.2).map lnF)
        else allocRef h ((readRef h r).map lnF)
      else (h, r)
  | none => (h, r)


/-! ## Theorems -/

/-! ### Shared helper lemmas -/

lemma getD_map_some (xs : List ℚ) (i : Nat) :
    (xs.map some).getD i none = xs[i]? := by
  rw [List.getD_eq_getElem?_getD, List.getElem?_map]
  cases xs[i]? <;> rfl

lemma getElem?_eq_some_getD (xs : List ℚ) (j : Nat) (h : j < xs.length) :
    xs[j]? = some (xs.getD j 0) := by
  rw [List.getElem?_eq_getElem h, List.getD_eq_getElem?_getD, List.getElem?_eq_getElem h]
  rfl

lemma apply_differencing_eq_lag (xs : List ℚ) (k : Nat) (hk : 1 ≤ k) :
    apply_differencing (k : Int) (xs.map some) = (lagDiff k xs).map some := by
  have hknot : ¬ ((k : Int) ≤ 0) := by
    simp only [not_le]
    exact_mod_cast hk
  have htn : (k : Int).toNat = k := by simp
  unfold apply_differencing
  rw [if_neg hknot, htn]
  unfold seriesDiff
  have hlen : (xs.map some).length = xs.length := by simp
  rw [hlen]
  simp only [getD_map_some]
  by_cases hkn : xs.length ≤ k
  · have h0 : xs.length - k = 0 := Nat.sub_eq_zero_of_le hkn
    unfold lagDiff dropna
    rw [h0]
    simp only [List.range_zero, List.map_nil]
    rw [List.filter_eq_nil_iff]
    intro a ha
    rw [List.mem_map] at ha
    obtain ⟨i, hi, rfl⟩ := ha
    rw [List.mem_range] at hi
    simp [if_pos (lt_of_lt_of_le hi hkn)]
  · push_neg at hkn
    have hsplit : List.range xs.length = List.range' 0 k ++ List.range' k (xs.length - k) := by
      rw [List.range_eq_range']
      have h := List.range'_append 0 k (xs.length - k) 1
      simp only [one_mul, Nat.zero_add] at h
      rw [h, Nat.sub_add_cancel (le_of_lt hkn)]
    rw [hsplit, List.map_append]
    unfold dropna
    rw [List.filter_append]
    have h1 : (List.map (fun i =>
        if i < k then none
        else
          match xs[i]?, xs[i - k]? with
          | some a, some b => some (a - b)
          | _, _ => none) (List.range' 0 k)).filter (fun x => x.isSome) = [] := by
      rw [List.filter_eq_nil_iff]
      intro a ha
      rw [List.mem_map] at ha
      obtain ⟨i, hi, rfl⟩ := ha
      rw [List.mem_range'_1] at hi
      simp [if_pos (show i < k by omega)]
    rw [h1, List.nil_append]
    have h2 : ∀ i ∈ List.range' k (xs.length - k),
        (fun i =>
          if i < k then none
          else
            match xs[i]?, xs[i - k]? with
            | some a, some b => some (a - b)
            | _, _ => none) i = some (xs.getD i 0 - xs.getD (i - k) 0) := by
      intro i hi
      rw [List.mem_range'_1] at hi
      have hik : ¬ i < k := by omega
      have hin : i < xs.length := by omega
      have hikn : i - k < xs.length := by omega
      simp only [if_neg hik, getElem?_eq_some_getD xs i hin,
        getElem?_eq_some_getD xs (i - k) hikn]
    rw [List.map_congr_left h2]
    have h3 : (List.map (fun i => some (xs.getD i 0 - xs.getD (i - k) 0))
        (List.range' k (xs.length - k))).filter (fun x => x.isSome) =
        List.map (fun i => some (xs.getD i 0 - xs.getD (i - k) 0))
        (List.range' k (xs.length - k)) := by
      rw [List.filter_eq_self]
      intro a ha
      rw [List.mem_map] at ha
      obtain ⟨i, _, rfl⟩ := ha
      rfl
    rw [h3, List.range'_eq_map_range, List.map_map]
    unfold lagDiff
    rw [List.map_map]
    apply List.map_congr_left
    intro i hi
    rw [List.mem_range] at hi
    simp only [Function.comp]
    rw [Nat.add_comm k i, Nat.add_sub_cancel]

lemma getD_map_mapsome (rows : List (List ℚ)) (i : Nat) :
    (rows.map (fun r => r.map some)).getD i [] = (rows.getD i []).map some := by
  rw [List.getD_eq_getElem?_getD, List.getElem?_map, List.getD_eq_getElem?_getD]
  cases rows[i]? <;> rfl

lemma all_isSome_map_none (r : List ℚ) (hr : r ≠ []) :
    ((r.map some).map (fun _ => (none : Option ℚ))).all (fun x => x.isSome) = false := by
  cases r with
  | nil => exact absurd rfl hr
  | cons a as => simp

lemma apply_differencing_df_eq_lag (rows : List (List ℚ)) (k w : Nat) (hk : 1 ≤ k)
    (hw : 0 < w) (hrect : ∀ r ∈ rows, r.length = w) :
    apply_differencing_df (k : Int) (rows.map (fun r => r.map some)) =
      (lagDiffRows k rows).map (fun r => r.map some) := by
  have hknot : ¬ ((k : Int) ≤ 0) := by
    simp only [not_le]
    exact_mod_cast hk
  have htn : (k : Int).toNat = k := by simp
  unfold apply_differencing_df
  rw [if_neg hknot, htn]
  unfold frameDiff
  have hlen : (rows.map (fun r => r.map some)).length = rows.length := by simp
  rw [hlen]
  simp only [getD_map_mapsome]
  by_cases hkn : rows.length ≤ k
  · have h0 : rows.length - k = 0 := Nat.sub_eq_zero_of_le hkn
    unfold lagDiffRows frameDropna
    rw [h0]
    simp only [List.range_zero, List.map_nil]
    rw [List.filter_eq_nil_iff]
    intro a ha
    rw [List.mem_map] at ha
    obtain ⟨i, hi, rfl⟩ := ha
    rw [List.mem_range] at hi
    have hiw : (rows.getD i []).length = w := by
      have : rows.getD i [] ∈ rows := by
        rw [List.getD_eq_getElem?_getD, List.getElem?_eq_getElem hi]
        exact List.getElem_mem hi
      exact hrect _ this
    rw [if_pos (lt_of_lt_of_le hi hkn)]
    have hne : rows.getD i [] ≠ [] := by
      intro hnil
      rw [hnil] at hiw
      simp at hiw
      omega
    simp only [all_isSome_map_none _ hne]
    simp
  · push_neg at hkn
    have hsplit : List.range rows.length = List.range' 0 k ++ List.range' k (rows.length - k) := by
      rw [List.range_eq_range']
      have h := List.range'_append 0 k (rows.length - k) 1
      simp only [one_mul, Nat.zero_add] at h
      rw [h, Nat.sub_add_cancel (le_of_lt hkn)]
    rw [hsplit, List.map_append]
    unfold frameDropna
    rw [List.filter_append]
    have hrowlen : ∀ i, i < rows.length → (rows.getD i []).length = w := by
      intro i hi
      apply hrect
      rw [List.getD_eq_getElem?_getD, List.getElem?_eq_getElem hi]
      exact List.getElem_mem hi
    have h1 : (List.map (fun i =>
        if i < k then ((rows.getD i []).map some).map (fun _ => (none : Option ℚ))
        else
          List.zipWith (fun a b =>
              match a, b with
              | some x, some y => some (x - y)
              | _, _ => none)
            ((rows.getD i []).map some) ((rows.getD (i - k) []).map some))
        (List.range' 0 k)).filter (fun row => row.all (fun x => x.isSome)) = [] := by
      rw [List.filter_eq_nil_iff]
      intro a ha
      rw [List.mem_map] at ha
      obtain ⟨i, hi, rfl⟩ := ha
      rw [List.mem_range'_1] at hi
      have hin : i < rows.length := by omega
      rw [if_pos (show i < k by omega)]
      have hne : rows.getD i [] ≠ [] := by
        intro hnil
        have := hrowlen i hin
        rw [hnil] at this
        simp at this
        omega
      simp only [all_isSome_map_none _ hne]
      simp
    rw [h1, List.nil_append]
    have h2 : ∀ i ∈ List.range' k (rows.length - k),
        (fun i =>
          if i < k then ((rows.getD i []).map some).map (fun _ => (none : Option ℚ))
          else
            List.zipWith (fun a b =>
                match a, b with
                | some x, some y => some (x - y)
                | _, _ => none)
              ((rows.getD i []).map some) ((rows.getD (i - k) []).map some)) i =
          (List.zipWith (fun a b => a - b) (rows.getD i []) (rows.getD (i - k) [])).map some := by
      intro i hi
      rw [List.mem_range'_1] at hi
      have hik : ¬ i < k := by omega
      simp only [if_neg hik, List.zipWith_map, List.map_zipWith]
    rw [List.map_congr_left h2]
    have h3 : (List.map (fun i =>
        (List.zipWith (fun a b => a - b) (rows.getD i []) (rows.getD (i - k) [])).map some)
        (List.range' k (rows.length - k))).filter (fun row => row.all (fun x => x.isSome)) =
        List.map (fun i =>
        (List.zipWith (fun a b => a - b) (rows.getD i []) (rows.getD (i - k) [])).map some)
        (List.range' k (rows.length - k)) := by
      rw [List.filter_eq_self]
      intro a ha
      rw [List.mem_map] at ha
      obtain ⟨i, _, rfl⟩ := ha
      simp [List.all_eq_true]
    rw [h3, List.range'_eq_map_range, List.map_map]
    unfold lagDiffRows
    rw [List.map_map]
    apply List.map_congr_left
    intro i hi
    rw [List.mem_range] at hi
    simp only [Function.comp]
    rw [Nat.add_comm k i, Nat.add_sub_cancel]



/-! ### C1: differencing semantics -/

/-- C1 counterexample: the claim "`apply_differencing(data, k)` returns the
`k`-fold iterated first difference" is false at the concrete series
`[1, 4, 9, 16]` with `k = 2`: the code returns the lag-2 difference
`[8, 12]`, while the 2-fold iterated first difference is `[2, 2]`. -/
theorem apply_differencing_not_iterated :
    apply_differencing 2 (([1, 4, 9, 16] : List ℚ).map some) ≠
      (iterFirstDiff 2 [1, 4, 9, 16]).map some := by
  have h1 : apply_differencing 2 (([1, 4, 9, 16] : List ℚ).map some) =
      [some 8, some 12] := by
    norm_num [apply_differencing, seriesDiff, dropna, List.range_succ,
      show (2 : Int).toNat = 2 from rfl]
  have h2 : iterFirstDiff 2 ([1, 4, 9, 16] : List ℚ) = [2, 2] := by
    norm_num [iterFirstDiff, firstDiff, lagDiff, List.range_succ]
  rw [h1, h2]
  norm_num

/-- C1 (amended): for every NaN-free series and every order `k ≥ 1`,
`apply_differencing` returns the single lag-`k` difference
`x_t - x_(t-k)` (with the `k` leading NaNs dropped), and likewise
row-wise for every NaN-free rectangular frame with at least one column;
this coincides with the iterated first difference exactly at `k = 1`. -/
theorem apply_differencing_lag_semantics :
    (∀ (xs : List ℚ) (k : Nat), 1 ≤ k →
        apply_differencing (k : Int) (xs.map some) = (lagDiff k xs).map some) ∧
    (∀ (rows : List (List ℚ)) (k w : Nat), 1 ≤ k → 0 < w →
        (∀ r ∈ rows, r.length = w) →
        apply_differencing_df (k : Int) (rows.map (fun r => r.map some)) =
          (lagDiffRows k rows).map (fun r => r.map some)) ∧
    (∀ xs : List ℚ, lagDiff 1 xs = iterFirstDiff 1 xs) := by
  refine ⟨apply_differencing_eq_lag, ?_, ?_⟩
  · intro rows k w hk hw hrect
    exact apply_differencing_df_eq_lag rows k w hk hw hrect
  · intro xs
    rfl

/-- C1 witness: the amended statement evaluated at concrete inputs. -/
theorem apply_differencing_lag_semantics_witness :
    (1 ≤ 2 ∧
      apply_differencing (2 : Int) (([1, 4, 9, 16] : List ℚ).map some) =
        (lagDiff 2 [1, 4, 9, 16]).map some) ∧
    apply_differencing_df (2 : Int)
        (([[1, 2], [3, 4], [6, 8]] : List (List ℚ)).map (fun r => r.map some)) =
      (lagDiffRows 2 [[1, 2], [3, 4], [6, 8]]).map (fun r => r.map some) :=
  ⟨⟨by decide, apply_differencing_lag_semantics.1 [1, 4, 9, 16] 2 (by decide)⟩,
    apply_differencing_lag_semantics.2.1 [[1, 2], [3, 4], [6, 8]] 2 2
      (by decide) (by decide) (by decide)⟩

/-! ### C8: order 0 identity and length -/

/-- C8: `apply_differencing` with order 0 returns the input unchanged
(for a series and for a frame), and on a NaN-free series of length `n`
with order `k ≥ 1` the result has exactly `n - k` elements. -/
theorem apply_differencing_identity_and_length :
    (∀ data : List (Option ℚ), apply_differencing 0 data = data) ∧
    (∀ data : List (List (Option ℚ)), apply_differencing_df 0 data = data) ∧
    (∀ (xs : List ℚ) (k : Nat), 1 ≤ k →
        (apply_differencing (k : Int) (xs.map some)).length = xs.length - k) := by
  refine ⟨?_, ?_, ?_⟩
  · intro data
    simp [apply_differencing]
  · intro data
    simp [apply_differencing_df]
  · intro xs k hk
    rw [apply_differencing_eq_lag xs k hk]
    simp [lagDiff]

/-- C8 witness: the statement evaluated at concrete inputs. -/
theorem apply_differencing_identity_and_length_witness :
    apply_differencing 0 [some (1 : ℚ), none] = [some 1, none] ∧
    (1 ≤ 2 ∧ (apply_differencing (2 : Int) (([5, 6, 9] : List ℚ).map some)).length = 3 - 2) :=
  ⟨apply_differencing_identity_and_length.1 [some 1, none],
    by decide,
    apply_differencing_identity_and_length.2.2 [5, 6, 9] 2 (by decide)⟩

/-! ### C2: zero-variance short circuit in the KPSS check -/

/-- C2: whenever the zero-variance pre-check fires, the KPSS procedure
returns `(True, 1.0)` for every possible behaviour of the underlying
KPSS statistic (so the statistic is never consulted). -/
theorem kpss_zero_variance_short_circuit
    (kpssOracle : List ℚ → Except String ℚ) (series : List (Option ℚ))
    (significance_level : ℚ)
    (h : zeroVarCheck (dropnaVals series) = true) :
    check_stationarity_kpss kpssOracle series significance_level = (true, 1) := by
  simp [check_stationarity_kpss, h]

/-- C2 witness: the constant series `[5, 5, 5]`, with an oracle that
would fail if it were ever invoked. -/
theorem kpss_zero_variance_short_circuit_witness :
    zeroVarCheck (dropnaVals (([5, 5, 5] : List ℚ).map some)) = true ∧
    check_stationarity_kpss (fun _ => .error "kpss should not run")
      (([5, 5, 5] : List ℚ).map some) (1 / 20) = (true, 1) := by
  have hz : zeroVarCheck (dropnaVals (([5, 5, 5] : List ℚ).map some)) = true := by
    norm_num [zeroVarCheck, pvar, dropnaVals, List.filterMap_cons, List.sum_cons]
  exact ⟨hz, kpss_zero_variance_short_circuit _ _ _ hz⟩

/-! ### C3: rejection of non-positive lag parameters -/

/-- C3: `perform_granger_causality_test` with `max_lag ≤ 0` returns
`None` whatever the pairwise tests would do, and `fit_var_model` with
`lag_order ≤ 0` returns `None` whatever the estimation would do. -/
theorem nonpositive_lag_rejected :
    (∀ (results : VarResultsM) (oracle : String → String → Except String GRaw)
        (max_lag : Int) (significance_level : ℚ), max_lag ≤ 0 →
        perform_granger_causality_test results oracle max_lag significance_level = none) ∧
    (∀ (fitOracle : Int → Except String VarResultsM) (hasNaN : Bool) (lag_order : Int),
        lag_order ≤ 0 → fit_var_model fitOracle hasNaN lag_order = none) := by
  constructor
  · intro results oracle max_lag significance_level h
    simp [perform_granger_causality_test, h]
  · intro fitOracle hasNaN lag_order h
    unfold fit_var_model
    by_cases h1 : lag_order < 0
    · rw [if_pos h1]
    · rw [if_neg h1, if_pos (by omega)]

/-- C3 witness: both rejections at `max_lag = 0` and `lag_order = 0`. -/
theorem nonpositive_lag_rejected_witness :
    ((0 : Int) ≤ 0 ∧
      perform_granger_causality_test ⟨["X", "Y"], []⟩
        (fun _ _ => .error "unused") 0 (1 / 20) = none) ∧
    fit_var_model (fun _ => .error "unused") false 0 = none :=
  ⟨⟨by decide, nonpositive_lag_rejected.1 ⟨["X", "Y"], []⟩ _ 0 (1 / 20) (by decide)⟩,
    nonpositive_lag_rejected.2 _ false 0 (by decide)⟩

/-! ### C5: conservative fallback on internal test failure -/

/-- C5: when the underlying unit-root computation raises, the ADF
procedure returns `(False, 1.0)` and the KPSS procedure (outside the
zero-variance special case, where the statistic is not run at all)
returns `(False, 0.0)`. -/
theorem stationarity_error_fallback
    (adfOracle kpssOracle : List ℚ → Except String ℚ) (series : List (Option ℚ))
    (significance_level : ℚ) (eA eK : String)
    (hA : adfOracle (dropnaVals series) = .error eA)
    (hv : zeroVarCheck (dropnaVals series) = false)
    (hK : kpssOracle (dropnaVals series) = .error eK) :
    check_stationarity_adf adfOracle series significance_level = (false, 1) ∧
    check_stationarity_kpss kpssOracle series significance_level = (false, 0) := by
  constructor
  · unfold check_stationarity_adf
    rw [hA]
  · simp [check_stationarity_kpss, hv, hK]

/-- C5 witness: the non-constant series `[1, 2]` with failing oracles. -/
theorem stationarity_error_fallback_witness :
    ((fun _ : List ℚ => (Except.error "adf failed" : Except String ℚ))
        (dropnaVals (([1, 2] : List ℚ).map some)) = .error "adf failed" ∧
      zeroVarCheck (dropnaVals (([1, 2] : List ℚ).map some)) = false) ∧
    check_stationarity_adf (fun _ => .error "adf failed")
        (([1, 2] : List ℚ).map some) (1 / 20) = (false, 1) ∧
    check_stationarity_kpss (fun _ => .error "kpss failed")
        (([1, 2] : List ℚ).map some) (1 / 20) = (false, 0) := by
  have hv : zeroVarCheck (dropnaVals (([1, 2] : List ℚ).map some)) = false := by
    norm_num [zeroVarCheck, pvar, dropnaVals, List.filterMap_cons, List.sum_cons]
  exact ⟨⟨rfl, hv⟩,
    stationarity_error_fallback (fun _ => .error "adf failed")
      (fun _ => .error "kpss failed") _ _ _ _ rfl hv rfl⟩

/-! ### C4: per-pair failure isolation in the Granger loop -/

lemma grangerInner_nil (oracle : String → String → Except String GRaw)
    (maxLag : Int) (sl : ℚ) (c : String) (d : GMap) :
    grangerInner oracle maxLag sl c d [] = d := rfl

lemma grangerInner_cons (oracle : String → String → Except String GRaw)
    (maxLag : Int) (sl : ℚ) (c : String) (d : GMap) (g : String) (gs : List String) :
    grangerInner oracle maxLag sl c d (g :: gs) =
      grangerInner oracle maxLag sl c
        (if c = g then d else gmapUpdate d (c, g) (mkGEntry maxLag sl (oracle c g))) gs := by
  unfold grangerInner
  rw [List.foldl_cons]

/-- Every write performed by the loops stores, at key `(c, g)`, exactly
the entry `mkGEntry maxLag sl (oracle c g)`; hence once a pair's entry
holds its prescribed value, any further inner-loop iteration (for any
`caused` variable) keeps it. -/
lemma grangerInner_preserve (oracle : String → String → Except String GRaw)
    (maxLag : Int) (sl : ℚ) (caused₀ causing₀ c : String) :
    ∀ (vars : List String) (d : GMap),
      d (caused₀, causing₀) = some (mkGEntry maxLag sl (oracle caused₀ causing₀)) →
      grangerInner oracle maxLag sl c d vars (caused₀, causing₀) =
        some (mkGEntry maxLag sl (oracle caused₀ causing₀)) := by
  intro vars
  induction vars with
  | nil =>
    intro d h
    rw [grangerInner_nil]
    exact h
  | cons g gs ih =>
    intro d h
    rw [grangerInner_cons]
    apply ih
    by_cases hcg : c = g
    · rw [if_pos hcg]
      exact h
    · rw [if_neg hcg]
      by_cases hk : (caused₀, causing₀) = (c, g)
      · have hc1 : caused₀ = c := congrArg Prod.fst hk
        have hc2 : causing₀ = g := congrArg Prod.snd hk
        rw [show gmapUpdate d (c, g) (mkGEntry maxLag sl (oracle c g)) (caused₀, causing₀) =
              some (mkGEntry maxLag sl (oracle c g)) from if_pos hk]
        rw [hc1, hc2]
      · rw [show gmapUpdate d (c, g) (mkGEntry maxLag sl (oracle c g)) (caused₀, causing₀) =
              d (caused₀, causing₀) from if_neg hk]
        exact h

/-- The inner loop for `caused₀` writes the prescribed entry for every
distinct `causing₀` it encounters. -/
lemma grangerInner_establish (oracle : String → String → Except String GRaw)
    (maxLag : Int) (sl : ℚ) (caused₀ causing₀ : String)
    (hne : caused₀ ≠ causing₀) :
    ∀ (vars : List String) (d : GMap), causing₀ ∈ vars →
      grangerInner oracle maxLag sl caused₀ d vars (caused₀, causing₀) =
        some (mkGEntry maxLag sl (oracle caused₀ causing₀)) := by
  intro vars
  induction vars with
  | nil =>
    intro d h
    exact absurd h (List.not_mem_nil causing₀)
  | cons g gs ih =>
    intro d hmem
    rw [grangerInner_cons]
    rcases List.mem_cons.mp hmem with hg | hg
    · subst hg
      rw [if_neg hne]
      apply grangerInner_preserve
      exact if_pos rfl
    · by_cases hcg : caused₀ = g
      · rw [if_pos hcg]
        exact ih d hg
      · rw [if_neg hcg]
        exact ih _ hg

/-- Outer-loop preservation: once a pair's entry holds its prescribed
value, processing any further `caused` variables keeps it. -/
lemma grangerOuter_preserve (oracle : String → String → Except String GRaw)
    (maxLag : Int) (sl : ℚ) (caused₀ causing₀ : String) (names : List String) :
    ∀ (l : List String) (d : GMap),
      d (caused₀, causing₀) = some (mkGEntry maxLag sl (oracle caused₀ causing₀)) →
      (l.foldl (fun d2 caused => grangerInner oracle maxLag sl caused d2 names) d)
          (caused₀, causing₀) =
        some (mkGEntry maxLag sl (oracle caused₀ causing₀)) := by
  intro l
  induction l with
  | nil =>
    intro d h
    exact h
  | cons c cs ih =>
    intro d h
    rw [List.foldl_cons]
    exact ih _ (grangerInner_preserve oracle maxLag sl caused₀ causing₀ c names d h)

/-- Outer-loop establishment: every ordered pair of distinct variables
receives its prescribed entry. -/
lemma grangerOuter_establish (oracle : String → String → Except String GRaw)
    (maxLag : Int) (sl : ℚ) (caused₀ causing₀ : String) (names : List String)
    (hne : caused₀ ≠ causing₀) (hg : causing₀ ∈ names) :
    ∀ (l : List String) (d : GMap), caused₀ ∈ l →
      (l.foldl (fun d2 caused => grangerInner oracle maxLag sl caused d2 names) d)
          (caused₀, causing₀) =
        some (mkGEntry maxLag sl (oracle caused₀ causing₀)) := by
  intro l
  induction l with
  | nil =>
    intro d h
    exact absurd h (List.not_mem_nil caused₀)
  | cons c cs ih =>
    intro d hmem
    rw [List.foldl_cons]
    rcases List.mem_cons.mp hmem with hc | hc
    · subst hc
      exact grangerOuter_preserve oracle maxLag sl caused₀ causing₀ names cs _
        (grangerInner_establish oracle maxLag sl caused₀ causing₀ hne names d hg)
    · exact ih _ hc

/-- C4: with a positive `max_lag`, the Granger loop evaluates every
ordered pair of distinct variables independently: whatever the oracle
does on the other pairs, pair `(caused, causing)` is present in the
returned mapping and holds exactly the entry derived from its own test
outcome — the extracted statistics on success, the error marker when
that pair's test raised. -/
theorem granger_pair_failure_isolated
    (results : VarResultsM) (oracle : String → String → Except String GRaw)
    (max_lag : Int) (significance_level : ℚ) (caused causing : String)
    (hpos : 0 < max_lag) (hc : caused ∈ results.names)
    (hg : causing ∈ results.names) (hne : caused ≠ causing) :
    ∃ m : GMap,
      perform_granger_causality_test results oracle max_lag significance_level = some m ∧
      m (caused, causing) =
        some (mkGEntry max_lag significance_level (oracle caused causing)) := by
  have hML : ¬ (max_lag ≤ 0) := not_le.mpr hpos
  unfold perform_granger_causality_test
  rw [if_neg hML]
  exact ⟨_, rfl,
    grangerOuter_establish oracle max_lag significance_level caused causing
      results.names hne hg results.names (fun _ => none) hc⟩

/-- C4 witness: two variables where the test of `("Y", "X")` raises and
the test of `("X", "Y")` succeeds; the failing pair is present as the
error marker. -/
theorem granger_pair_failure_isolated_witness :
    (0 < (1 : Int) ∧ "Y" ∈ ["X", "Y"] ∧ "X" ∈ ["X", "Y"] ∧ "Y" ≠ "X") ∧
    (∃ m : GMap,
      perform_granger_causality_test ⟨["X", "Y"], []⟩
        (fun c _ => if c = "Y" then .error "numerical failure"
                    else .ok ⟨1, 1, 1, 1, 1, 1⟩) 1 (1 / 20) = some m ∧
      m ("Y", "X") = some (GEntry.err "numerical failure")) :=
  ⟨⟨by decide, by decide, by decide, by decide⟩,
    granger_pair_failure_isolated ⟨["X", "Y"], []⟩
      (fun c _ => if c = "Y" then .error "numerical failure"
                  else .ok ⟨1, 1, 1, 1, 1, 1⟩) 1 (1 / 20) "Y" "X"
      (by decide) (by decide) (by decide) (by decide)⟩

/-! ### C6: column-name collisions in `merge_dataframes` -/

/-- C6 (code bug evidence): with both inputs owning a column `"A"`, the
collision exists and pandas resolves it by suffixing to distinct names
`A_x`/`A_y`, but precisely because of that suffixing the post-merge
duplicate check `merged_df.columns.duplicated().any()` is `False`, so
the collision warning the code (and its tests) promise is never
raised. -/
theorem merge_collision_unflagged :
    columnsCollide ["A"] ["A"] = true ∧
    mergedColumnNames ["A"] ["A"] = ["A_x", "A_y"] ∧
    merge_dup_warning ["A"] ["A"] = false := by
  refine ⟨by decide, by decide, by decide⟩

/-! ### C7: monthly gap detection in `check_completeness` -/

lemma foldl_min_le (l : List Nat) (a : Nat) :
    l.foldl min a ≤ a ∧ ∀ x ∈ l, l.foldl min a ≤ x := by
  induction l generalizing a with
  | nil => exact ⟨le_refl a, fun x hx => absurd hx (List.not_mem_nil x)⟩
  | cons b bs ih =>
    rw [List.foldl_cons]
    refine ⟨le_trans (ih (min a b)).1 (min_le_left a b), fun x hx => ?_⟩
    rcases List.mem_cons.mp hx with hb | hb
    · subst hb
      exact le_trans (ih (min a x)).1 (min_le_right a x)
    · exact (ih (min a b)).2 x hb

lemma le_foldl_max (l : List Nat) (a : Nat) :
    a ≤ l.foldl max a ∧ ∀ x ∈ l, x ≤ l.foldl max a := by
  induction l generalizing a with
  | nil => exact ⟨le_refl a, fun x hx => absurd hx (List.not_mem_nil x)⟩
  | cons b bs ih =>
    rw [List.foldl_cons]
    refine ⟨le_trans (le_max_left a b) (ih (max a b)).1, fun x hx => ?_⟩
    rcases List.mem_cons.mp hx with hb | hb
    · subst hb
      exact le_trans (le_max_right a x) (ih (max a x)).1
    · exact (ih (max a b)).2 x hb

lemma listMin_le (idx : List Nat) (lo : Nat) (h : listMin idx = some lo) :
    ∀ x ∈ idx, lo ≤ x := by
  cases idx with
  | nil => exact absurd h (by simp [listMin])
  | cons a as =>
    intro x hx
    have hlo : as.foldl min a = lo := by
      have h2 := h
      unfold listMin at h2
      exact Option.some.inj h2
    rcases List.mem_cons.mp hx with hb | hb
    · subst hb
      rw [← hlo]
      exact (foldl_min_le as x).1
    · rw [← hlo]
      exact (foldl_min_le as a).2 x hb

lemma listMax_ge (idx : List Nat) (hi : Nat) (h : listMax idx = some hi) :
    ∀ x ∈ idx, x ≤ hi := by
  cases idx with
  | nil => exact absurd h (by simp [listMax])
  | cons a as =>
    intro x hx
    have hhi : as.foldl max a = hi := by
      have h2 := h
      unfold listMax at h2
      exact Option.some.inj h2
    rcases List.mem_cons.mp hx with hb | hb
    · subst hb
      rw [← hhi]
      exact (le_foldl_max as x).1
    · rw [← hhi]
      exact (le_foldl_max as a).2 x hb

/-- C7: on a duplicate-free monthly index, the reported missing periods
are exactly the months of the contiguous range implied by the index's
minimum and maximum that are not observed; in particular for
`[Jan, Mar, Apr]` exactly `[Feb]` is reported. -/
theorem check_completeness_gap_detection (idx : List Nat) (lo hi : Nat)
    (hnd : idx.Nodup) (hlo : listMin idx = some lo) (hhi : listMax idx = some hi) :
    (∀ m, m ∈ check_completeness idx ↔ (lo ≤ m ∧ m ≤ hi ∧ m ∉ idx)) ∧
    check_completeness [1, 3, 4] = [2] := by
  constructor
  · intro m
    have hlom : ∀ x ∈ idx, lo ≤ x := listMin_le idx lo hlo
    have hhim : ∀ x ∈ idx, x ≤ hi := listMax_ge idx hi hhi
    have hne : idx ≠ [] := by
      intro h
      rw [h] at hlo
      exact absurd hlo (by simp [listMin])
    have hlohi : lo ≤ hi := by
      rcases List.exists_mem_of_ne_nil idx hne with ⟨x, hx⟩
      exact le_trans (hlom x hx) (hhim x hx)
    have hrange : ∀ n, n ∈ List.range' lo (hi + 1 - lo) ↔ (lo ≤ n ∧ n ≤ hi) := by
      intro n
      rw [List.mem_range'_1]
      constructor
      · rintro ⟨h1, h2⟩
        exact ⟨h1, by omega⟩
      · rintro ⟨h1, h2⟩
        exact ⟨h1, by omega⟩
    unfold check_completeness
    rw [hlo, hhi]
    show m ∈ (if idx.length = (List.range' lo (hi + 1 - lo)).length then []
        else List.filter (fun m => decide (m ∉ idx)) (List.range' lo (hi + 1 - lo))) ↔
      (lo ≤ m ∧ m ≤ hi ∧ m ∉ idx)
    by_cases hlen : idx.length = (List.range' lo (hi + 1 - lo)).length
    · rw [if_pos hlen]
      have hsub : idx.toFinset ⊆ (List.range' lo (hi + 1 - lo)).toFinset := by
        intro x hx
        rw [List.mem_toFinset] at hx ⊢
        exact (hrange x).mpr ⟨hlom x hx, hhim x hx⟩
      have hcardi : idx.toFinset.card = idx.length :=
        List.toFinset_card_of_nodup hnd
      have hcardr : (List.range' lo (hi + 1 - lo)).toFinset.card =
          (List.range' lo (hi + 1 - lo)).length :=
        List.toFinset_card_of_nodup (List.nodup_range' _ _)
      have heq : idx.toFinset = (List.range' lo (hi + 1 - lo)).toFinset :=
        Finset.eq_of_subset_of_card_le hsub (by omega)
      simp only [List.not_mem_nil, false_iff]
      rintro ⟨h1, h2, h3⟩
      apply h3
      have hmem2 : m ∈ (List.range' lo (hi + 1 - lo)).toFinset := by
        rw [List.mem_toFinset]
        exact (hrange m).mpr ⟨h1, h2⟩
      rw [← heq, List.mem_toFinset] at hmem2
      exact hmem2
    · rw [if_neg hlen]
      rw [List.mem_filter]
      rw [hrange m]
      constructor
      · rintro ⟨⟨h1, h2⟩, h3⟩
        rw [decide_eq_true_eq] at h3
        exact ⟨h1, h2, h3⟩
      · rintro ⟨h1, h2, h3⟩
        exact ⟨⟨h1, h2⟩, by rw [decide_eq_true_eq]; exact h3⟩
  · decide

/-- C7 witness: the characterization applied to the index
`[Jan, Mar, Apr] = [1, 3, 4]`. -/
theorem check_completeness_gap_detection_witness :
    ([1, 3, 4] : List Nat).Nodup ∧
    (2 ∈ check_completeness [1, 3, 4] ↔ (1 ≤ 2 ∧ 2 ≤ 4 ∧ 2 ∉ ([1, 3, 4] : List Nat))) ∧
    check_completeness [1, 3, 4] = [2] :=
  ⟨by decide,
    (check_completeness_gap_detection [1, 3, 4] 1 4 (by decide) (by decide) (by decide)).1 2,
    (check_completeness_gap_detection [1, 3, 4] 1 4 (by decide) (by decide) (by decide)).2⟩

/-! ### C9: loaders on missing/unreadable files -/

/-- C9: when every attempt to read the file raises (the file is missing
or unreadable), both loaders return the empty frame together with a
descriptive message, whatever the downstream transformations would do;
being total functions of their oracles, no exception escapes them. -/
theorem loader_missing_file_empty
    (readCsvT : List Char → Except ReadErr RawCsv)
    (transformT : RawCsv → Except ReadErr LoadFrame)
    (readCsvS : List Char → Except ReadErr RawCsv)
    (transformMort : RawCsv → Except ReadErr LoadFrame)
    (readDtpDirect : List Char → Except ReadErr LoadFrame)
    (readPlain : List Char → Except ReadErr RawCsv)
    (manualDtp : RawCsv → Except ReadErr LoadFrame)
    (transformDtp : LoadFrame → Except ReadErr LoadFrame)
    (filepath : List Char) (eT eS eD eP : ReadErr)
    (hT : readCsvT filepath = .error eT)
    (hS : readCsvS filepath = .error eS)
    (hD : readDtpDirect filepath = .error eD)
    (hP : readPlain filepath = .error eP) :
    ((load_temperature_data readCsvT transformT filepath).1 = [] ∧
      (load_temperature_data readCsvT transformT filepath).2.isSome = true) ∧
    ((load_secondary_data readCsvS transformMort readDtpDirect readPlain
        manualDtp transformDtp filepath).1 = [] ∧
      (load_secondary_data readCsvS transformMort readDtpDirect readPlain
        manualDtp transformDtp filepath).2.isSome = true) := by
  constructor
  · unfold load_temperature_data
    rw [hT]
    exact ⟨rfl, rfl⟩
  · unfold load_secondary_data
    by_cases h1 : containsList ("mortality".toList) filepath = true
    · rw [if_pos h1, hS]
      exact ⟨rfl, rfl⟩
    · rw [if_neg h1]
      by_cases h2 : containsList ("dtp".toList) filepath = true
      · rw [if_pos h2, hD]
        cases eD with
        | valueErr m =>
          rw [hP]
          exact ⟨rfl, rfl⟩
        | otherErr m =>
          exact ⟨rfl, rfl⟩
      · rw [if_neg h2]
        exact ⟨rfl, rfl⟩

/-- C9 witness: a path naming a missing file, with every read attempt
raising `FileNotFoundError`. -/
theorem loader_missing_file_empty_witness :
    ((fun _ : List Char => (Except.error (ReadErr.otherErr "file not found") :
        Except ReadErr RawCsv)) ("missing.csv".toList) =
      .error (ReadErr.otherErr "file not found")) ∧
    (load_temperature_data (fun _ => .error (ReadErr.otherErr "file not found"))
        (fun _ => .ok []) ("missing.csv".toList)).1 = [] ∧
    (load_secondary_data (fun _ => .error (ReadErr.otherErr "file not found"))
        (fun _ => .ok []) (fun _ => .error (ReadErr.otherErr "file not found"))
        (fun _ => .error (ReadErr.otherErr "file not found")) (fun _ => .ok [])
        (fun df => .ok df) ("missing.csv".toList)).1 = [] :=
  ⟨rfl,
    (loader_missing_file_empty
      (fun _ => .error (ReadErr.otherErr "file not found")) (fun _ => .ok [])
      (fun _ => .error (ReadErr.otherErr "file not found")) (fun _ => .ok [])
      (fun _ => .error (ReadErr.otherErr "file not found"))
      (fun _ => .error (ReadErr.otherErr "file not found"))
      (fun _ => .ok []) (fun df => .ok df) ("missing.csv".toList)
      (ReadErr.otherErr "file not found") (ReadErr.otherErr "file not found")
      (ReadErr.otherErr "file not found") (ReadErr.otherErr "file not found")
      rfl rfl rfl rfl).1.1,
    (loader_missing_file_empty
      (fun _ => .error (ReadErr.otherErr "file not found")) (fun _ => .ok [])
      (fun _ => .error (ReadErr.otherErr "file not found")) (fun _ => .ok [])
      (fun _ => .error (ReadErr.otherErr "file not found"))
      (fun _ => .error (ReadErr.otherErr "file not found"))
      (fun _ => .ok []) (fun df => .ok df) ("missing.csv".toList)
      (ReadErr.otherErr "file not found") (ReadErr.otherErr "file not found")
      (ReadErr.otherErr "file not found") (ReadErr.otherErr "file not found")
      rfl rfl rfl rfl).2.1⟩

/-! ### C10: `normalize_data` log branch does not mutate its input -/

/-- C10: in the `method='log'` branch with a non-positive value present,
the substitution of values `≤ 0` by 1 happens on a freshly allocated
copy, so the caller's series object is unchanged after the call. -/
theorem normalize_log_preserves_input
    (zscoreF : List ℚ → List ℚ) (lnF : ℚ → ℚ) (h : PyHeap) (r : Nat)
    (hr : r < h.next)
    (hneg : (readRef h r).any (fun x => decide (x ≤ 0)) = true) :
    readRef (normalize_data zscoreF lnF (some "log") h r).1 r = readRef h r := by
  have h1 : r ≠ h.next := Nat.ne_of_lt hr
  have h2 : r ≠ h.next + 1 := by omega
  show readRef
      (if ((readRef h r).any fun x => decide (x ≤ 0)) = true then
          (let hr2 := allocRef h (readRef h r);
           let h3 := writeRef hr2.1 hr2.2
             ((readRef hr2.1 hr2.2).map (fun x => if x ≤ 0 then 1 else x));
           allocRef h3 ((readRef h3 hr2.2).map lnF))
        else allocRef h ((readRef h r).map lnF)).1 r = readRef h r
  rw [if_pos hneg]
  simp [readRef, allocRef, writeRef, h1, h2]

/-- C10 witness: a heap holding the series `[10, -5]` (which contains a
non-positive value) at reference 0. -/
theorem normalize_log_preserves_input_witness :
    (0 < (PyHeap.mk (fun _ => ([10, -5] : List ℚ)) 1).next ∧
      (readRef (PyHeap.mk (fun _ => ([10, -5] : List ℚ)) 1) 0).any
        (fun x => decide (x ≤ 0)) = true) ∧
    readRef (normalize_data id id (some "log")
        (PyHeap.mk (fun _ => ([10, -5] : List ℚ)) 1) 0).1 0 =
      readRef (PyHeap.mk (fun _ => ([10, -5] : List ℚ)) 1) 0 := by
  have hneg : (readRef (PyHeap.mk (fun _ => ([10, -5] : List ℚ)) 1) 0).any
      (fun x => decide (x ≤ 0)) = true := by
    norm_num [readRef, List.any_cons]
  exact ⟨⟨by decide, hneg⟩,
    normalize_log_preserves_input id id _ 0 (by decide) hneg⟩

end GrangerSpec
